import Mathlib

/-!
Shallow embedding of the strategy-execution and streaming code of the
`python-2026` repository (files `fyers-api/nifty_strategy.py`,
`fyers-api/nifty_algo.py`, `fyers-api/strangle_strategy.py`,
`fyers-api/websocketTest.py`, `fyers-api/market_data_stream.py`).

Modelling conventions:
* A `datetime.time` value is embedded as the number of seconds since
  midnight (a `Nat`); `datetime.weekday()` is a `Nat` with `0 = Monday`,
  `2 = Wednesday`, `5 = Saturday`, `6 = Sunday`.
* Calendar dates are embedded as absolute day numbers (`Nat`) with the
  convention `day % 7 = weekday` (day 0 is a Monday), so adding a
  `timedelta` of `d` days is `+ d`.
* Money amounts (P&L, margin, percentages) are embedded as rationals `ℚ`;
  the Python code uses floats but every claim is about exact comparisons,
  which the rational model captures.
* A brokerage response is embedded as its status flag plus the fields the
  code reads; a non-`"ok"` status is an explicit constructor / flag.
* Side effects (orders sent to the broker, transport closes) are made
  explicit as returned traces / counters.
-/

namespace Spec2Proof

/-- Seconds since midnight for a `datetime.time(h, m, s)` value. -/
def timeOfDay (h m s : Nat) : Nat := h * 3600 + m * 60 + s

namespace NiftyStrategy

/-- `is_market_open` from `nifty_strategy.py` lines 65–76: returns `False`
on weekends (`weekday >= 5`), otherwise tests
`time(9,15) <= now.time() <= time(15,30)` — both bounds inclusive. -/
def is_market_open (weekday t : Nat) : Bool :=
  if weekday ≥ 5 then false
  else decide (timeOfDay 9 15 0 ≤ t) && decide (t ≤ timeOfDay 15 30 0)

/-- `STRATEGY_CONFIG["ENTRY_TIME"] = time(9, 45)` from `nifty_strategy.py`. -/
def ENTRY_TIME : Nat := timeOfDay 9 45 0

/-- `NiftyOptionsStrategy.should_enter_trade` from `nifty_strategy.py`
lines 150–166: requires `weekday == 0` (Monday), `now.time()` not before
`ENTRY_TIME`, and `is_market_open()`. Both clock reads of the original
(`get_current_time` directly and inside `is_market_open`) are the same
tick, embedded as one `(weekday, t)` pair. -/
def should_enter_trade (weekday t : Nat) : Bool :=
  if weekday ≠ 0 then false
  else if t < ENTRY_TIME then false
  else if ¬ (is_market_open weekday t = true) then false
  else true

/-- `get_next_expiry`: `days_until_wednesday = (2 - now.weekday()) % 7`
(Python `%` on a possibly negative dividend returns a value in `[0, 7)`,
matching Lean `Int.emod`), replaced by 7 when it is 0. -/
def days_until_wednesday (weekday : Nat) : Nat :=
  let d := (((2 : Int) - (weekday : Int)) % 7).toNat
  if d = 0 then 7 else d

/-- `get_next_expiry` from `nifty_strategy.py` lines 79–94, returning the
absolute day number of the expiry (`now + timedelta(days=days_until_wednesday)`);
the `DDMMMYY` string the code formats is a function of this day number.
The `dte_target` parameter is kept because the source declares it, but the
body never reads it. -/
def get_next_expiry (dte_target : Nat) (nowDay : Nat) : Nat :=
  nowDay + days_until_wednesday (nowDay % 7)

/-- Python `round` (round-half-to-even) on a rational, as used by
`calculate_atm_strike`. -/
def pyRound (x : ℚ) : Int :=
  let f := ⌊x⌋
  let frac := x - f
  if frac < 1/2 then f
  else if 1/2 < frac then f + 1
  else if f % 2 = 0 then f else f + 1

/-- `calculate_atm_strike` from `nifty_strategy.py` lines 97–99:
`round(spot_price / strike_interval) * strike_interval`. -/
def calculate_atm_strike (spot_price strike_interval : ℚ) : ℚ :=
  (pyRound (spot_price / strike_interval) : ℚ) * strike_interval

/-- One leg of the strike configuration dict built by
`get_strike_configuration`. -/
structure StrikeLeg where
  strike : ℚ
  qty : Nat
  side : Int
deriving DecidableEq

/-- The three-leg dict returned by `get_strike_configuration`. -/
structure StrikeConfig where
  BUY_ATM_CE : StrikeLeg
  SELL_CE : StrikeLeg
  BUY_HEDGE_CE : StrikeLeg
deriving DecidableEq

/-- `NiftyOptionsStrategy.get_strike_configuration` from `nifty_strategy.py`
lines 168–193: computes the ATM strike (default interval 50) and offsets
+200 / +400 / +600 with quantities 1 / 3 / 2 and sides BUY / SELL / BUY. -/
def get_strike_configuration (spot_price : ℚ) : StrikeConfig × ℚ :=
  let atm_strike := calculate_atm_strike spot_price 50
  (⟨⟨atm_strike + 200, 1, 1⟩, ⟨atm_strike + 400, 3, -1⟩, ⟨atm_strike + 600, 2, 1⟩⟩,
   atm_strike)

/-- A `fyers.funds()` response as read by `calculate_deployed_capital`:
either a non-`"ok"` status, or an `"ok"` status whose first `fund_limit`
entry may or may not carry the `utilized_margin` key. -/
inductive FundsResponse where
  | fail : FundsResponse
  | ok : Option ℚ → FundsResponse
deriving DecidableEq

/-- `calculate_deployed_capital` from `nifty_strategy.py` lines 113–126:
returns `funds["fund_limit"][0].get("utilized_margin", 0)` on an `"ok"`
response and `0` otherwise. -/
def calculate_deployed_capital : FundsResponse → ℚ
  | FundsResponse.fail => 0
  | FundsResponse.ok none => 0
  | FundsResponse.ok (some m) => m

/-- A `fyers.positions()` response as read by `calculate_current_pnl`:
the status flag and the `pl` field of each entry of `netPositions`. -/
structure PositionsResponse where
  ok : Bool
  pls : List ℚ
deriving DecidableEq

/-- `NiftyOptionsStrategy.calculate_current_pnl` from `nifty_strategy.py`
lines 291–306: returns 0 when no position is active, returns 0 when the
positions lookup status is not `"ok"`, otherwise sums the per-position
`pl` fields. -/
def calculate_current_pnl (position_active : Bool) (resp : PositionsResponse) : ℚ :=
  if position_active = false then 0
  else if resp.ok = false then 0
  else resp.pls.sum

/-- Exit reasons produced by `check_exit_conditions`. -/
inductive ExitReason where
  | TARGET : ExitReason
  | STOP_LOSS : ExitReason
deriving DecidableEq

/-- `NiftyOptionsStrategy.check_exit_conditions` from `nifty_strategy.py`
lines 308–328: with an active position, computes
`target_amount = deployed_capital * (TARGET_PERCENT / 100)` and
`sl_amount = -deployed_capital * (STOP_LOSS_PERCENT / 100)`, then reports
`(True, "TARGET")` when `current_pnl >= target_amount`, else
`(True, "STOP_LOSS")` when `current_pnl <= sl_amount`, else `(False, None)`. -/
def check_exit_conditions (position_active : Bool)
    (deployed_capital target_percent stop_loss_percent : ℚ)
    (resp : PositionsResponse) : Bool × Option ExitReason :=
  if position_active = false then (false, none)
  else
    let current_pnl := calculate_current_pnl position_active resp
    let target_amount := deployed_capital * (target_percent / 100)
    let sl_amount := -deployed_capital * (stop_loss_percent / 100)
    if target_amount ≤ current_pnl then (true, some ExitReason.TARGET)
    else if current_pnl ≤ sl_amount then (true, some ExitReason.STOP_LOSS)
    else (false, none)

/-- The order-placement loop of `NiftyOptionsStrategy.execute_basket_entry`
from `nifty_strategy.py` lines 242–289, abstracted over the leg payload
type: legs are sent to the broker one at a time in list order; on the
first non-`"ok"` response the loop returns `False` immediately without
sending further legs. The first component is the exact sequence of legs
submitted to the broker (the side-effect trace); the second is the
returned success flag. No compensating (unwind) orders are placed. -/
def execute_basket_entry {α : Type} (broker : α → Bool) : List α → List α × Bool
  | [] => ([], true)
  | order :: rest =>
    if broker order then
      match execute_basket_entry broker rest with
      | (placed, flag) => (order :: placed, flag)
    else ([order], false)

end NiftyStrategy

namespace NiftyAlgo

/-- `is_market_open` from `nifty_algo.py` lines 94–96:
`dtime(9, 15) <= now <= dtime(15, 30)`, no weekday guard, both bounds
inclusive. -/
def is_market_open (t : Nat) : Bool :=
  decide (timeOfDay 9 15 0 ≤ t) && decide (t ≤ timeOfDay 15 30 0)

end NiftyAlgo

namespace StrangleStrategy

/-- One entry of `response["data"]["expiryData"]` as read by
`get_nearest_expiry`: only the `date` key is consulted (a `YYYYMMDD`
date, embedded as a `Nat`; its numeric order is the calendar order). -/
structure ExpiryEntry where
  date : Nat
deriving DecidableEq

/-- A `fyers.optionchain` response as read by `get_nearest_expiry`:
non-`"ok"` status, or the `expiryData` list. -/
inductive ChainResponse where
  | fail : ChainResponse
  | ok : List ExpiryEntry → ChainResponse
deriving DecidableEq

/-- Python `min(expiries, key=lambda x: x["date"])` on a non-empty list:
scan left to right keeping the current champion, replacing it only when a
strictly smaller key appears (so the first minimum wins ties). -/
def minByDate (e : ExpiryEntry) (rest : List ExpiryEntry) : ExpiryEntry :=
  rest.foldl (fun acc x => if x.date < acc.date then x else acc) e

/-- `get_nearest_expiry` from `strangle_strategy.py` lines 56–69: on an
`"ok"` response returns `min(expiries, key=lambda x: x["date"])["date"]`,
otherwise `None`. (On an `"ok"` response with an empty list the Python
`min` raises; that case is outside every claim and embedded as `none`.) -/
def get_nearest_expiry : ChainResponse → Option Nat
  | ChainResponse.fail => none
  | ChainResponse.ok [] => none
  | ChainResponse.ok (e :: rest) => some (minByDate e rest).date

end StrangleStrategy

namespace StreamingClient

/-- The state of `FyersOrderWebSocket` / `FyersMarketDataWebSocket` read
by `disconnect`: whether `self.ws` is set and the `_is_running` flag. -/
structure WsState where
  ws_exists : Bool
  is_running : Bool
deriving DecidableEq

/-- `disconnect` from `websocketTest.py` lines 292–314 and
`market_data_stream.py` lines 210–224: guarded by
`if self.ws and self._is_running`; inside the guard it clears
`_is_running` and closes the transport once (`close_connection`).
Returns the new state and the number of transport-close side effects
performed by this call (0 or 1). -/
def disconnect (s : WsState) : WsState × Nat :=
  if s.ws_exists && s.is_running then (⟨s.ws_exists, false⟩, 1)
  else (s, 0)

/-- Two successive `disconnect` calls; second component is the total
number of transport-close side effects. -/
def disconnectTwice (s : WsState) : WsState × Nat :=
  let r1 := disconnect s
  let r2 := disconnect r1.1
  (r2.1, r1.2 + r2.2)

end StreamingClient

end Spec2Proof

namespace Spec2Proof

open NiftyStrategy StrangleStrategy StreamingClient

/-- Python `round` is the identity on integer-valued rationals. -/
theorem pyRound_intCast (n : ℤ) : pyRound (n : ℚ) = n := by
  simp [pyRound]

/-- `check_exit_conditions` on an active position, rewritten as one
nested conditional on the current P&L value. -/
theorem check_exit_eq_pnl (D T S : ℚ) (resp : PositionsResponse) :
    check_exit_conditions true D T S resp =
      (if D * T / 100 ≤ calculate_current_pnl true resp then
         (true, some ExitReason.TARGET)
       else if calculate_current_pnl true resp ≤ -(D * S / 100) then
         (true, some ExitReason.STOP_LOSS)
       else (false, none)) := by
  have e1 : D * (T / 100) = D * T / 100 := by ring
  have e2 : -(D * (S / 100)) = -(D * S / 100) := by ring
  simp only [check_exit_conditions]
  norm_num [e1, e2]

/-- `check_exit_conditions` on an active position and an ok positions
response, as one nested conditional on the total reported P&L. -/
theorem check_exit_eq (D T S : ℚ) (resp : PositionsResponse) (hok : resp.ok = true) :
    check_exit_conditions true D T S resp =
      (if D * T / 100 ≤ resp.pls.sum then (true, some ExitReason.TARGET)
       else if resp.pls.sum ≤ -(D * S / 100) then (true, some ExitReason.STOP_LOSS)
       else (false, none)) := by
  have hpnl : calculate_current_pnl true resp = resp.pls.sum := by
    simp [calculate_current_pnl, hok]
  rw [check_exit_eq_pnl, hpnl]

/-- `should_enter_trade` as a conjunction of its three gate conditions. -/
theorem should_enter_eq (w t : Nat) :
    should_enter_trade w t =
      (decide (w = 0) && decide (ENTRY_TIME ≤ t) && is_market_open w t) := by
  unfold should_enter_trade
  split_ifs with h1 h2 h3 <;> simp_all <;> omega

/-- C1 (corrected). A transient positions-query failure on a tick makes
`calculate_current_pnl` return 0, and `check_exit_conditions` then
reports no exit (so the monitoring loop does not break on that tick) —
PROVIDED both the target amount `deployedCapital * target% / 100` and the
stop-loss magnitude `deployedCapital * stopLoss% / 100` are strictly
positive. With `deployed_capital = 0` (reachable when the funds lookup
fails at entry, see C9) both thresholds collapse to 0 and a failed tick
reports TARGET instead; see the counterexample. -/
theorem c1_failed_tick_is_noop (active : Bool)
    (deployed target_percent stop_loss_percent : ℚ)
    (resp : PositionsResponse) (hfail : resp.ok = false)
    (htarget : 0 < deployed * target_percent / 100)
    (hsl : 0 < deployed * stop_loss_percent / 100) :
    check_exit_conditions active deployed target_percent stop_loss_percent resp
      = (false, none) := by
  cases active with
  | false => simp [check_exit_conditions]
  | true =>
    have hpnl : calculate_current_pnl true resp = 0 := by
      simp [calculate_current_pnl, hfail]
    rw [check_exit_eq_pnl, hpnl]
    rw [if_neg (by linarith), if_neg (by linarith)]

/-- C1 witness: deployed capital 100, both thresholds 1%; a failed
positions response yields no exit. -/
theorem c1_witness :
    check_exit_conditions true 100 1 1 ⟨false, [5]⟩ = (false, none) :=
  c1_failed_tick_is_noop true 100 1 1 ⟨false, [5]⟩ rfl (by norm_num) (by norm_num)

/-- C1 counterexample: in the active state with `deployed_capital = 0`
and 1% target/stop-loss, a failed positions response makes
`check_exit_conditions` report `(True, "TARGET")` — an exit, not a
no-op — so the monitoring loop breaks on that tick. -/
theorem c1_counterexample :
    check_exit_conditions true 0 1 1 ⟨false, []⟩ = (true, some ExitReason.TARGET) := by
  norm_num [check_exit_conditions, calculate_current_pnl]

/-- C2 (corrected). On a trading weekday the market-hours window of
`is_market_open` is the CLOSED interval [09:15, 15:30]: true iff
`09:15 ≤ t` and `t ≤ 15:30`, and in particular true at exactly 15:30 —
the code tests `market_open <= current_time <= market_close`, so the
claim's half-open interval (false at 15:30) does not hold. The
`nifty_algo.py` variant tests the same closed interval with no weekday
guard. -/
theorem c2_market_hours_closed_interval (w t : Nat) (hw : w < 5) :
    (NiftyStrategy.is_market_open w t = true ↔
       (timeOfDay 9 15 0 ≤ t ∧ t ≤ timeOfDay 15 30 0)) ∧
    NiftyStrategy.is_market_open w (timeOfDay 15 30 0) = true ∧
    (NiftyAlgo.is_market_open t = true ↔
       (timeOfDay 9 15 0 ≤ t ∧ t ≤ timeOfDay 15 30 0)) := by
  have h5 : ¬ w ≥ 5 := by omega
  refine ⟨?_, ?_, ?_⟩
  · simp [NiftyStrategy.is_market_open, h5]
  · simp [NiftyStrategy.is_market_open, h5, timeOfDay]
  · simp [NiftyAlgo.is_market_open]

/-- C2 witness: the closed-interval characterization instantiated on
Monday at 10:00:00. -/
theorem c2_witness :
    (NiftyStrategy.is_market_open 0 (timeOfDay 10 0 0) = true ↔
       (timeOfDay 9 15 0 ≤ timeOfDay 10 0 0 ∧ timeOfDay 10 0 0 ≤ timeOfDay 15 30 0)) ∧
    NiftyStrategy.is_market_open 0 (timeOfDay 15 30 0) = true ∧
    (NiftyAlgo.is_market_open (timeOfDay 10 0 0) = true ↔
       (timeOfDay 9 15 0 ≤ timeOfDay 10 0 0 ∧ timeOfDay 10 0 0 ≤ timeOfDay 15 30 0)) :=
  c2_market_hours_closed_interval 0 (timeOfDay 10 0 0) (by norm_num)

/-- C2 counterexample: at exactly 15:30 on a trading weekday (Monday)
`is_market_open` returns `True`, where the claim requires `False`. -/
theorem c2_counterexample :
    NiftyStrategy.is_market_open 0 (timeOfDay 15 30 0) = true := by decide

/-- C3 (corrected). Exit decision boundary of `check_exit_conditions`
with an active position and an ok positions response: a total P&L exactly
equal to `D * T / 100` reports TARGET (unconditionally); a P&L strictly
between `-(D * S / 100)` and `D * T / 100` reports no exit; a P&L
satisfying target and stop-loss at once reports TARGET (target checked
first); and a P&L exactly equal to `-(D * S / 100)` reports STOP_LOSS
PROVIDED the stop-loss threshold lies strictly below the target
threshold — with `D = 0` both thresholds coincide at 0 and that P&L
reports TARGET instead (see the counterexample). -/
theorem c3_exit_decision_boundary (D T S : ℚ) (resp : PositionsResponse)
    (hok : resp.ok = true) :
    (resp.pls.sum = D * T / 100 →
       check_exit_conditions true D T S resp = (true, some ExitReason.TARGET)) ∧
    (-(D * S / 100) < D * T / 100 → resp.pls.sum = -(D * S / 100) →
       check_exit_conditions true D T S resp = (true, some ExitReason.STOP_LOSS)) ∧
    (-(D * S / 100) < resp.pls.sum → resp.pls.sum < D * T / 100 →
       check_exit_conditions true D T S resp = (false, none)) ∧
    (D * T / 100 ≤ resp.pls.sum → resp.pls.sum ≤ -(D * S / 100) →
       check_exit_conditions true D T S resp = (true, some ExitReason.TARGET)) := by
  refine ⟨?_, ?_, ?_, ?_⟩
  · intro h
    rw [check_exit_eq D T S resp hok, if_pos (le_of_eq h.symm)]
  · intro hlt h
    have hneg : ¬ (D * T / 100 ≤ resp.pls.sum) := by rw [h]; linarith
    rw [check_exit_eq D T S resp hok, if_neg hneg, if_pos (le_of_eq h)]
  · intro hl hr
    rw [check_exit_eq D T S resp hok, if_neg (by linarith), if_neg (by linarith)]
  · intro hl hr
    rw [check_exit_eq D T S resp hok, if_pos hl]

/-- C3 witness: deployed capital 100, target 1%, stop-loss 1%; a
position list with total P&L exactly 1 = 100 * 1 / 100 triggers TARGET. -/
theorem c3_witness :
    check_exit_conditions true 100 1 1 ⟨true, [1]⟩ = (true, some ExitReason.TARGET) :=
  (c3_exit_decision_boundary 100 1 1 ⟨true, [1]⟩ rfl).1 (by norm_num)

/-- C3 counterexample: with `D = 0`, `T = S = 1` and an ok response whose
total P&L is 0 — exactly the claimed STOP_LOSS boundary `-(D * S / 100)` —
the code reports TARGET, not STOP_LOSS. -/
theorem c3_counterexample :
    List.sum [(0 : ℚ)] = -((0 : ℚ) * 1 / 100) ∧
    check_exit_conditions true 0 1 1 ⟨true, [0]⟩ = (true, some ExitReason.TARGET) ∧
    check_exit_conditions true 0 1 1 ⟨true, [0]⟩ ≠ (true, some ExitReason.STOP_LOSS) := by
  have h2 : check_exit_conditions true 0 1 1 ⟨true, [0]⟩
      = (true, some ExitReason.TARGET) := by
    norm_num [check_exit_conditions, calculate_current_pnl]
  refine ⟨by norm_num, h2, ?_⟩
  rw [h2]
  exact fun hc => absurd hc (by decide)

/-- C4 (confirmed). Entry gate: `should_enter_trade` is true iff the
weekday is the configured entry weekday (Monday, 0), the clock is at or
past `ENTRY_TIME` (09:45), and the market is open; the boundary at
exactly 09:45:00 is inclusive and one second before (09:44:59) is
exclusive. -/
theorem c4_entry_gate (w t : Nat) :
    (should_enter_trade w t = true ↔
       (w = 0 ∧ ENTRY_TIME ≤ t ∧ is_market_open w t = true)) ∧
    should_enter_trade 0 (timeOfDay 9 45 0) = true ∧
    should_enter_trade 0 (timeOfDay 9 44 59) = false := by
  refine ⟨?_, by decide, by decide⟩
  rw [should_enter_eq]
  simp [and_assoc]

/-- C4 witness: the gate characterization instantiated at Monday
09:45:00. -/
theorem c4_witness :
    (should_enter_trade 0 (timeOfDay 9 45 0) = true ↔
       (0 = 0 ∧ ENTRY_TIME ≤ timeOfDay 9 45 0 ∧
        is_market_open 0 (timeOfDay 9 45 0) = true)) ∧
    should_enter_trade 0 (timeOfDay 9 45 0) = true ∧
    should_enter_trade 0 (timeOfDay 9 44 59) = false :=
  c4_entry_gate 0 (timeOfDay 9 45 0)

/-- C5 (confirmed). Basket partial failure: when the broker accepts every
leg of the prefix `pre` and rejects the next leg, `execute_basket_entry`
submits exactly `pre ++ [rejected]` — the legs after the rejected one are
never sent, no unwinding orders are added to the trace — and returns the
failure flag `false` (the "partial" outcome). -/
theorem c5_basket_partial_failure {α : Type} (broker : α → Bool)
    (pre : List α) (rejected : α) (post : List α)
    (hpre : ∀ l ∈ pre, broker l = true) (hrej : broker rejected = false) :
    execute_basket_entry broker (pre ++ rejected :: post) = (pre ++ [rejected], false) := by
  induction pre with
  | nil => simp [execute_basket_entry, hrej]
  | cons a pre ih =>
    have ha : broker a = true := hpre a (List.mem_cons_self a pre)
    have ih2 := ih (fun l hl => hpre l (List.mem_cons_of_mem a hl))
    simp [execute_basket_entry, ha, ih2]

/-- C5 witness: a 5-leg basket whose third leg is rejected submits
exactly the first three legs and reports failure. -/
theorem c5_witness :
    execute_basket_entry (fun n => decide (n < 2)) ([0, 1] ++ 2 :: [3, 4])
      = ([0, 1] ++ [2], false) :=
  c5_basket_partial_failure (fun n => decide (n < 2)) [0, 1] 2 [3, 4]
    (by decide) (by decide)

/-- C6 (confirmed). Strike selection: `get_strike_configuration` is a
pure function of the spot price (determinism is definitional in this
embedding), its ATM base is `calculate_atm_strike spot 50`, its three
legs sit at ATM+200 < ATM+400 < ATM+600, and at spot 22,050 with strike
base 50 the ATM is 22,050 and the legs are 22,250 / 22,450 / 22,650. -/
theorem c6_strike_selection (S : ℚ) :
    (get_strike_configuration S).2 = calculate_atm_strike S 50 ∧
    (get_strike_configuration S).1.BUY_ATM_CE.strike = calculate_atm_strike S 50 + 200 ∧
    (get_strike_configuration S).1.SELL_CE.strike = calculate_atm_strike S 50 + 400 ∧
    (get_strike_configuration S).1.BUY_HEDGE_CE.strike = calculate_atm_strike S 50 + 600 ∧
    (get_strike_configuration S).1.BUY_ATM_CE.strike
      < (get_strike_configuration S).1.SELL_CE.strike ∧
    (get_strike_configuration S).1.SELL_CE.strike
      < (get_strike_configuration S).1.BUY_HEDGE_CE.strike ∧
    calculate_atm_strike 22050 50 = 22050 ∧
    (get_strike_configuration 22050).1.BUY_ATM_CE.strike = 22250 ∧
    (get_strike_configuration 22050).1.SELL_CE.strike = 22450 ∧
    (get_strike_configuration 22050).1.BUY_HEDGE_CE.strike = 22650 := by
  have hatm : calculate_atm_strike 22050 50 = 22050 := by
    have h : (22050 : ℚ) / 50 = ((441 : ℤ) : ℚ) := by norm_num
    rw [calculate_atm_strike, h, pyRound_intCast]
    norm_num
  refine ⟨rfl, rfl, rfl, rfl, ?_, ?_, hatm, ?_, ?_, ?_⟩
  · simp only [get_strike_configuration]
    linarith
  · simp only [get_strike_configuration]
    linarith
  · simp only [get_strike_configuration]
    rw [hatm]; norm_num
  · simp only [get_strike_configuration]
    rw [hatm]; norm_num
  · simp only [get_strike_configuration]
    rw [hatm]; norm_num

/-- C6 witness: the strike characterization instantiated at spot 22,050. -/
theorem c6_witness :
    (get_strike_configuration 22050).2 = calculate_atm_strike 22050 50 ∧
    (get_strike_configuration 22050).1.BUY_ATM_CE.strike
      = calculate_atm_strike 22050 50 + 200 ∧
    (get_strike_configuration 22050).1.SELL_CE.strike
      = calculate_atm_strike 22050 50 + 400 ∧
    (get_strike_configuration 22050).1.BUY_HEDGE_CE.strike
      = calculate_atm_strike 22050 50 + 600 ∧
    (get_strike_configuration 22050).1.BUY_ATM_CE.strike
      < (get_strike_configuration 22050).1.SELL_CE.strike ∧
    (get_strike_configuration 22050).1.SELL_CE.strike
      < (get_strike_configuration 22050).1.BUY_HEDGE_CE.strike ∧
    calculate_atm_strike 22050 50 = 22050 ∧
    (get_strike_configuration 22050).1.BUY_ATM_CE.strike = 22250 ∧
    (get_strike_configuration 22050).1.SELL_CE.strike = 22450 ∧
    (get_strike_configuration 22050).1.BUY_HEDGE_CE.strike = 22650 :=
  c6_strike_selection 22050

/-- Unfolding one step of the Python `min` scan. -/
theorem minByDate_cons (e x : ExpiryEntry) (rest : List ExpiryEntry) :
    minByDate e (x :: rest) = minByDate (if x.date < e.date then x else e) rest := rfl

/-- The Python `min` scan returns the seed or an element of the list. -/
theorem minByDate_mem (rest : List ExpiryEntry) : ∀ e,
    minByDate e rest = e ∨ minByDate e rest ∈ rest := by
  induction rest with
  | nil => intro e; exact Or.inl rfl
  | cons x rest ih =>
    intro e
    rw [minByDate_cons]
    rcases ih (if x.date < e.date then x else e) with h | h
    · rw [h]
      by_cases hx : x.date < e.date
      · simp [hx]
      · simp [hx]
    · exact Or.inr (List.mem_cons_of_mem x h)

/-- The Python `min` scan result is a lower bound of the seed and of
every element of the list. -/
theorem minByDate_le (rest : List ExpiryEntry) : ∀ e,
    (minByDate e rest).date ≤ e.date ∧ ∀ x ∈ rest, (minByDate e rest).date ≤ x.date := by
  induction rest with
  | nil =>
    intro e
    exact ⟨le_refl _, by simp⟩
  | cons x rest ih =>
    intro e
    rw [minByDate_cons]
    obtain ⟨h1, h2⟩ := ih (if x.date < e.date then x else e)
    have he : (if x.date < e.date then x else e).date ≤ e.date := by
      by_cases hx : x.date < e.date <;> simp [hx] <;> omega
    have hx2 : (if x.date < e.date then x else e).date ≤ x.date := by
      by_cases hx : x.date < e.date <;> simp [hx] <;> omega
    refine ⟨le_trans h1 he, ?_⟩
    intro y hy
    rcases List.mem_cons.mp hy with hy | hy
    · rw [hy]; exact le_trans h1 hx2
    · exact h2 y hy

/-- C7 (confirmed). `get_nearest_expiry` returns `None` when the
option-chain lookup fails, and on an ok response with a non-empty expiry
list it returns the `date` of an entry of the list whose date is minimal
among all entries. -/
theorem c7_nearest_expiry (e : ExpiryEntry) (rest : List ExpiryEntry) :
    get_nearest_expiry ChainResponse.fail = none ∧
    ∃ m ∈ e :: rest,
      get_nearest_expiry (ChainResponse.ok (e :: rest)) = some m.date ∧
      ∀ x ∈ e :: rest, m.date ≤ x.date := by
  refine ⟨rfl, minByDate e rest, ?_, rfl, ?_⟩
  · rcases minByDate_mem rest e with h | h
    · rw [h]; exact List.mem_cons_self e rest
    · exact List.mem_cons_of_mem e h
  · intro x hx
    rcases List.mem_cons.mp hx with hx | hx
    · rw [hx]; exact (minByDate_le rest e).1
    · exact (minByDate_le rest e).2 x hx

/-- C7 witness: on the list of dates 20260115, 20260108, 20260122 the
minimum 20260108 is returned. -/
theorem c7_witness :
    get_nearest_expiry ChainResponse.fail = none ∧
    ∃ m ∈ [ExpiryEntry.mk 20260115, ExpiryEntry.mk 20260108, ExpiryEntry.mk 20260122],
      get_nearest_expiry (ChainResponse.ok
        [ExpiryEntry.mk 20260115, ExpiryEntry.mk 20260108, ExpiryEntry.mk 20260122])
        = some m.date ∧
      ∀ x ∈ [ExpiryEntry.mk 20260115, ExpiryEntry.mk 20260108, ExpiryEntry.mk 20260122],
        m.date ≤ x.date :=
  c7_nearest_expiry (ExpiryEntry.mk 20260115)
    [ExpiryEntry.mk 20260108, ExpiryEntry.mk 20260122]

/-- C8 (confirmed). `disconnect` is idempotent: from a state with a live
transport and the running flag set, two successive `disconnect` calls
perform exactly one transport close (the second call is a no-op because
the running flag is already cleared); from an already-disconnected state
(`_is_running` false) `disconnect` performs no transport close at all. -/
theorem c8_disconnect_idempotent (s : WsState) :
    (s.ws_exists = true → s.is_running = true → (disconnectTwice s).2 = 1) ∧
    (s.is_running = false →
       (disconnect s).2 = 0 ∧ (disconnectTwice s).2 = 0) := by
  obtain ⟨w, r⟩ := s
  cases w <;> cases r <;> simp [disconnect, disconnectTwice]

/-- C8 witness: from the connected running state two calls close once;
from a non-running state no close happens. -/
theorem c8_witness :
    (disconnectTwice ⟨true, true⟩).2 = 1 ∧
    (disconnect ⟨true, false⟩).2 = 0 ∧
    (disconnectTwice ⟨true, false⟩).2 = 0 :=
  ⟨(c8_disconnect_idempotent ⟨true, true⟩).1 rfl rfl,
   ((c8_disconnect_idempotent ⟨true, false⟩).2 rfl).1,
   ((c8_disconnect_idempotent ⟨true, false⟩).2 rfl).2⟩

/-- C9 (confirmed). `calculate_deployed_capital` returns 0 both when the
funds lookup status is not ok and when the `utilized_margin` key is
absent; with `deployed_capital = 0` both exit thresholds equal 0, so on
any subsequent monitoring tick with total P&L ≥ 0 `check_exit_conditions`
reports TARGET, and every tick (any response, any P&L sign) reports an
exit — never the no-exit outcome. -/
theorem c9_zero_capital_always_exits (target_percent stop_loss_percent : ℚ)
    (resp : PositionsResponse) :
    calculate_deployed_capital FundsResponse.fail = 0 ∧
    calculate_deployed_capital (FundsResponse.ok none) = 0 ∧
    (0 : ℚ) * (target_percent / 100) = 0 ∧
    -(0 : ℚ) * (stop_loss_percent / 100) = 0 ∧
    (resp.ok = true → 0 ≤ resp.pls.sum →
       check_exit_conditions true 0 target_percent stop_loss_percent resp
         = (true, some ExitReason.TARGET)) ∧
    (check_exit_conditions true 0 target_percent stop_loss_percent resp).1 = true := by
  have ht : (0 : ℚ) * target_percent / 100 = 0 := by ring
  have hs : -((0 : ℚ) * stop_loss_percent / 100) = 0 := by ring
  refine ⟨rfl, rfl, by ring, by ring, ?_, ?_⟩
  · intro hok hge
    have hpnl : calculate_current_pnl true resp = resp.pls.sum := by
      simp [calculate_current_pnl, hok]
    rw [check_exit_eq_pnl 0 target_percent stop_loss_percent resp]
    rw [if_pos (by rw [ht, hpnl]; exact hge)]
  · rw [check_exit_eq_pnl 0 target_percent stop_loss_percent resp]
    rcases le_total 0 (calculate_current_pnl true resp) with hp | hp
    · rw [if_pos (by rw [ht]; exact hp)]
    · by_cases h0 : (0 : ℚ) * target_percent / 100 ≤ calculate_current_pnl true resp
      · rw [if_pos h0]
      · rw [if_neg h0, if_pos (by rw [hs]; exact hp)]

/-- C9 witness: with zero deployed capital and 1% thresholds, a tick with
total P&L 5 ≥ 0 reports TARGET. -/
theorem c9_witness :
    check_exit_conditions true 0 1 1 ⟨true, [5]⟩ = (true, some ExitReason.TARGET) :=
  (c9_zero_capital_always_exits 1 1 ⟨true, [5]⟩).2.2.2.2.1 rfl (by norm_num)

/-- C10 (confirmed). `get_next_expiry` ignores its `dte_target` argument
(two runs with different targets at the same current time return the same
expiry day, hence the same formatted string), and the returned day is the
upcoming Wednesday strictly in the future — between 1 and 7 days ahead,
with weekday Wednesday (`% 7 = 2`) — and from a Wednesday it is the
Wednesday seven days later, never the same day. -/
theorem c10_expiry_ignores_dte (dte1 dte2 nowDay : Nat) :
    get_next_expiry dte1 nowDay = get_next_expiry dte2 nowDay ∧
    nowDay < get_next_expiry dte1 nowDay ∧
    get_next_expiry dte1 nowDay ≤ nowDay + 7 ∧
    get_next_expiry dte1 nowDay % 7 = 2 ∧
    (nowDay % 7 = 2 → get_next_expiry dte1 nowDay = nowDay + 7) := by
  have hk : nowDay % 7 < 7 := Nat.mod_lt _ (by norm_num)
  have key : ∀ k, k < 7 → 1 ≤ days_until_wednesday k ∧ days_until_wednesday k ≤ 7 ∧
      (k + days_until_wednesday k) % 7 = 2 ∧ (k = 2 → days_until_wednesday k = 7) := by
    decide
  obtain ⟨h1, h2, h3, h4⟩ := key _ hk
  refine ⟨rfl, ?_, ?_, ?_, ?_⟩
  · unfold get_next_expiry; omega
  · unfold get_next_expiry; omega
  · unfold get_next_expiry; omega
  · intro h
    have hd := h4 h
    unfold get_next_expiry
    omega

/-- C10 witness: on a Wednesday (day 2), runs with DTE targets 8 and 3
agree and both return day 9, the Wednesday seven days later. -/
theorem c10_witness :
    get_next_expiry 8 2 = get_next_expiry 3 2 ∧ get_next_expiry 8 2 = 2 + 7 :=
  ⟨(c10_expiry_ignores_dte 8 3 2).1, (c10_expiry_ignores_dte 8 3 2).2.2.2.2 rfl⟩

end Spec2Proof
